import Mathlib

/-!
Verification of the master/client gated chat component (src/pC.js) of the
Private-Chat repository. The component is UI glue over a document store and an
auth service; the bespoke logic is the gating policy in `handleSendMessage`,
the login/logout/cleanup handlers, the status snapshot listener, and the
press-and-hold logout timer. We embed those handlers as pure functions over an
explicit store/session state and prove the spec's claims about them.
-/

namespace PrivateChat

/-- Embeds the constant HARDCODED_CLIENT_ID (src/pC.js line 30). -/
def HARDCODED_CLIENT_ID : String := "client_user_12345"

/-- Embeds the constant SPECIAL_CODE (src/pC.js line 32). -/
def SPECIAL_CODE : String := "UNLOCK123"

/-- Embeds the constant MAX_MESSAGES_BEFORE_LOCK (src/pC.js line 34). -/
def MAX_MESSAGES_BEFORE_LOCK : Nat := 3

/-- Executable embedding of JavaScript String.prototype.trim: strip leading
and trailing whitespace characters. -/
def jsTrim (s : String) : String :=
  ⟨((s.data.dropWhile Char.isWhitespace).reverse.dropWhile Char.isWhitespace).reverse⟩

/-- Executable embedding of JavaScript String.prototype.toUpperCase, restricted
to the ASCII letters that the special-code comparison involves. -/
def jsToUpper (s : String) : String :=
  ⟨s.data.map Char.toUpper⟩

/-- The two session roles derived client-side from the authenticated uid. -/
inductive Role
  | master
  | client
deriving DecidableEq, Repr

/-- Embeds the role resolution in the onAuthStateChanged callback
(src/pC.js line 117): `user.uid === HARDCODED_CLIENT_ID ? 'client' : 'master'`. -/
def resolveRole (uid : String) : Role :=
  if uid = HARDCODED_CLIENT_ID then Role.client else Role.master

/-- The ClientStatus document: { isLoggedIn, msgCount, forceLogout, lastLogin }
(src/pC.js lines 79 and 196-201). `lastLogin` is a timestamp, absent until a
login writes it. -/
structure ClientStatus where
  isLoggedIn : Bool
  msgCount : Nat
  forceLogout : Bool
  lastLogin : Option Nat := none
deriving DecidableEq, Repr

/-- A Message document: { text, senderId, timestamp } (src/pC.js lines 294-298). -/
structure Message where
  text : String
  senderId : String
  timestamp : Nat
deriving DecidableEq, Repr

/-- The document-store state relevant to one master/client conversation: the
ordered message collection at getChatCollectionPath and the ClientStatus
document at getStatusDocPath(HARDCODED_CLIENT_ID). -/
structure Store where
  messages : List Message
  status : Option ClientStatus
deriving DecidableEq, Repr

/-- A single document write issued by the component. -/
inductive Write
  | putMessage (m : Message)
  | putStatus (s : ClientStatus)
deriving DecidableEq, Repr

/-- One atomic unit applied to the store: a writeBatch commit, or a lone
setDoc/addDoc (a singleton batch). The store applies a batch all-or-nothing. -/
abbrev Batch := List Write

/-- The observable outcome of one handleSendMessage invocation: the atomic
units it commits (in order), whether it opened the error/limit modal, and
whether it cleared the input box. -/
structure SendResult where
  batches : List Batch
  modal : Bool
  inputCleared : Bool
deriving DecidableEq, Repr

/-- The outcome of a send attempt that issues no store operation. -/
def noSend : SendResult := { batches := [], modal := false, inputCleared := false }

/-- Embeds handleSendMessage (src/pC.js lines 257-312). `userId` and `userRole`
are the component's auth state; when `userRole` is null so is `masterId`
(line 88), which the guard on line 259 rejects. `clientStatus` is the
live-synced ClientStatus state, `newMessage` the input box content, and `now`
stands for `new Date()`. The special-code branch issues two separate
operations (a setDoc then an addDoc, lines 279-285), while the normal path
commits one writeBatch holding the message set and, for the client role, the
counter set (lines 290-307). -/
def handleSendMessage (userId : Option String) (userRole : Option Role)
    (clientStatus : ClientStatus) (newMessage : String) (now : Nat) :
    SendResult :=
  match userId, userRole with
  | none, _ => noSend
  | some _, none => noSend
  | some uid, some role =>
    if jsTrim newMessage = "" then noSend
    else
      let trimmedMessage := jsTrim newMessage
      if role = Role.client ∧ MAX_MESSAGES_BEFORE_LOCK ≤ clientStatus.msgCount then
        { batches := [], modal := true, inputCleared := false }
      else if role = Role.client ∧ jsToUpper trimmedMessage = SPECIAL_CODE then
        { batches :=
            [[Write.putStatus { clientStatus with msgCount := 0 }],
             [Write.putMessage
                { text := "Master: Code received. Client message counter reset.",
                  senderId := "SYSTEM", timestamp := now }]],
          modal := false, inputCleared := true }
      else
        let msgWrite := Write.putMessage
          { text := trimmedMessage, senderId := uid, timestamp := now }
        let writes :=
          if role = Role.client then
            [msgWrite,
             Write.putStatus
               { clientStatus with msgCount := clientStatus.msgCount + 1 }]
          else [msgWrite]
        { batches := [writes], modal := false, inputCleared := true }

/-- Applying one write to the store: a message set/add appends a fresh
document; a status set (whose payload spreads the whole previous status)
replaces the ClientStatus document. -/
def applyWrite (st : Store) : Write → Store
  | Write.putMessage m => { st with messages := st.messages ++ [m] }
  | Write.putStatus s => { st with status := some s }

/-- Applying one atomic batch to the store. -/
def applyBatch (st : Store) (b : Batch) : Store := b.foldl applyWrite st

/-- Applying the committed batches of a send, in order. -/
def applyBatches (st : Store) (bs : List Batch) : Store := bs.foldl applyBatch st

/-- All writes of a send result, in commit order. -/
def sendWrites (r : SendResult) : List Write := r.batches.foldl (· ++ ·) []

/-- The message documents a send appends. -/
def messageWrites (r : SendResult) : List Message :=
  (sendWrites r).filterMap fun w =>
    match w with
    | Write.putMessage m => some m
    | Write.putStatus _ => none

/-- The ClientStatus payloads a send writes. -/
def statusWrites (r : SendResult) : List ClientStatus :=
  (sendWrites r).filterMap fun w =>
    match w with
    | Write.putMessage _ => none
    | Write.putStatus s => some s

/-- The component's session-relevant state: the auth identity, the derived
role, the live-synced clientStatus React state, the current view of the store,
and whether signOut was invoked on the auth service. -/
structure AppState where
  userId : Option String
  userRole : Option Role
  clientStatus : ClientStatus
  store : Store
  signedOut : Bool
deriving DecidableEq, Repr

/-- Embeds deleteClientChatData (src/pC.js lines 220-240). The guard on
line 221 returns when the database or either id is missing. The body then
references `getDocs` (line 226), which the module never imports (line 15 only
imports `getDoc`), so the first statement of the `try` block throws a
ReferenceError; the `catch` (line 237) swallows it after neither the message
batch delete nor the status deleteDoc has run. The observable store effect of
every call is therefore no change. -/
def deleteClientChatData (mId cId : Option String) (st : Store) : Store :=
  if mId = none ∨ cId = none then st
  else st

/-- Embeds handleLogout (src/pC.js lines 243-254): signOut, then for the
hardcoded client identity an attempted data deletion (see
deleteClientChatData), then clearing userId and userRole. `masterId || userId`
on line 248 equals userId since masterId is userId whenever a role is set
(line 88). -/
def handleLogout (s : AppState) : AppState :=
  let s₁ : AppState := { s with signedOut := true }
  let s₂ : AppState :=
    if s₁.userId = some HARDCODED_CLIENT_ID then
      { s₁ with store := deleteClientChatData s₁.userId s₁.userId s₁.store }
    else s₁
  { s₂ with userId := none, userRole := none }

/-- Embeds the ClientStatus onSnapshot callback (src/pC.js lines 144-161): on
a snapshot of the status document it stores the data in the clientStatus
state, and when the session role is client and the snapshot has
forceLogout set it immediately invokes handleLogout; when the document does
not exist it resets the local clientStatus state. -/
def statusSnapshot (s : AppState) : AppState :=
  match s.store.status with
  | some status =>
    let s₁ : AppState := { s with clientStatus := status }
    if s₁.userRole = some Role.client ∧ status.forceLogout then handleLogout s₁
    else s₁
  | none =>
    { s with clientStatus := { isLoggedIn := false, msgCount := 0, forceLogout := false } }

/-- Embeds handleLogin (src/pC.js lines 188-216). The guard on line 189
returns when db or userId is missing. For the client role a batch set of the
fresh status { isLoggedIn: true, msgCount: 0, lastLogin: now, forceLogout:
false } is queued (lines 196-201), deleteClientChatData runs (line 204, see
its docstring), and then the batch commits (line 211). For the master role
the batch stays empty and the commit changes nothing. -/
def handleLogin (userId : Option String) (userRole : Option Role) (now : Nat)
    (st : Store) : Store :=
  match userId with
  | none => st
  | some uid =>
    if userRole = some Role.client then
      let st₁ := deleteClientChatData (some uid) (some uid) st
      { st₁ with
        status := some
          { isLoggedIn := true, msgCount := 0, forceLogout := false,
            lastLogin := some now } }
    else st

/-- Embeds canClientSend (src/pC.js line 375):
`isClientLoggedIn && clientStatus.msgCount < MAX_MESSAGES_BEFORE_LOCK`. -/
def canClientSend (clientStatus : ClientStatus) : Bool :=
  clientStatus.isLoggedIn && decide (clientStatus.msgCount < MAX_MESSAGES_BEFORE_LOCK)

/-- Embeds the chat form's client-side gate: the footer form renders only
while isClientLoggedIn (line 475), and for the client role both the text
input and the submit button carry `disabled` whenever canClientSend is false
(lines 501 and 506), so a client send attempt reaches handleSendMessage only
when the form exists and is enabled. -/
def clientSendAttempt (uid : String) (clientStatus : ClientStatus)
    (newMessage : String) (now : Nat) : SendResult :=
  if clientStatus.isLoggedIn && canClientSend clientStatus then
    handleSendMessage (some uid) (some Role.client) clientStatus newMessage now
  else noSend

/-- The client press-and-hold control's state: the deadline of the pending
setTimeout held in touchTimerRef (if any), the isTouching flag, and how many
times the timer callback has invoked handleLogout. -/
structure TouchState where
  deadline : Option Nat
  isTouching : Bool
  logouts : Nat
deriving DecidableEq, Repr

/-- Embeds handleTouchStart (src/pC.js lines 316-324): for the client role it
sets isTouching and stores in touchTimerRef a fresh 3000 ms timer whose
callback performs the auto-logout. -/
def handleTouchStart (role : Option Role) (now : Nat) (s : TouchState) : TouchState :=
  if role ≠ some Role.client then s
  else { s with isTouching := true, deadline := some (now + 3000) }

/-- Embeds handleTouchEnd (src/pC.js lines 327-331): for the client role it
clears the timer held in touchTimerRef and resets isTouching. -/
def handleTouchEnd (role : Option Role) (s : TouchState) : TouchState :=
  if role ≠ some Role.client then s
  else { s with deadline := none, isTouching := false }

/-- Event-loop timer semantics for the single pending setTimeout: when the
clock reaches its deadline the callback runs once (counted in logouts) and
the one-shot timer is consumed; otherwise nothing happens. -/
def fireDue (now : Nat) (s : TouchState) : TouchState :=
  match s.deadline with
  | some d =>
    if d ≤ now then { s with deadline := none, logouts := s.logouts + 1 }
    else s
  | none => s

/-- Running the event-loop clock through a sequence of instants, giving the
pending timer the chance to fire at each. -/
def runTicks (us : List Nat) (s : TouchState) : TouchState :=
  us.foldl (fun s u => fireDue u s) s


end PrivateChat
namespace PrivateChat

theorem runTicks_nil (s : TouchState) : runTicks [] s = s := rfl

theorem runTicks_cons (u : Nat) (us : List Nat) (s : TouchState) :
    runTicks (u :: us) s = runTicks us (fireDue u s) := rfl

/-- A state with no pending timer is unchanged by the passage of time. -/
theorem runTicks_deadline_none (us : List Nat) (s : TouchState)
    (h : s.deadline = none) : runTicks us s = s := by
  induction us with
  | nil => rfl
  | cons u us ih =>
    have hf : fireDue u s = s := by
      unfold fireDue
      rw [h]
    rw [runTicks_cons, hf]
    exact ih

/-- A pending timer whose deadline lies beyond every instant does not fire. -/
theorem runTicks_no_fire (us : List Nat) (s : TouchState) (d : Nat)
    (h : s.deadline = some d) (hall : ∀ u ∈ us, u < d) : runTicks us s = s := by
  induction us with
  | nil => rfl
  | cons u us ih =>
    have hu : u < d := hall u (List.mem_cons_self u us)
    have hf : fireDue u s = s := by
      unfold fireDue
      rw [h]
      exact if_neg (by omega)
    rw [runTicks_cons, hf]
    exact ih fun v hv => hall v (List.mem_cons_of_mem u hv)

/-- A pending timer fires exactly once as soon as an instant at or past its
deadline is reached. -/
theorem runTicks_fire_once (us : List Nat) (s : TouchState) (d : Nat)
    (h : s.deadline = some d) (hex : ∃ u ∈ us, d ≤ u) :
    (runTicks us s).logouts = s.logouts + 1 := by
  induction us generalizing s with
  | nil => simp at hex
  | cons u us ih =>
    by_cases hu : d ≤ u
    · have hf : fireDue u s = { s with deadline := none, logouts := s.logouts + 1 } := by
        unfold fireDue
        rw [h]
        exact if_pos hu
      rw [runTicks_cons, hf, runTicks_deadline_none us _ rfl]
    · have hf : fireDue u s = s := by
        unfold fireDue
        rw [h]
        exact if_neg hu
      rw [runTicks_cons, hf]
      rcases hex with ⟨v, hv, hdv⟩
      rcases List.mem_cons.mp hv with hvu | hvtail
      · exact absurd (hvu ▸ hdv) hu
      · exact ih s h ⟨v, hvtail, hdv⟩

/-- C5: the resolved role is client exactly when the authenticated identity
equals HARDCODED_CLIENT_ID, and master otherwise. -/
theorem c5_role_resolution (uid : String) :
    (resolveRole uid = Role.client ↔ uid = HARDCODED_CLIENT_ID) ∧
    (resolveRole uid = Role.master ↔ uid ≠ HARDCODED_CLIENT_ID) := by
  unfold resolveRole
  by_cases h : uid = HARDCODED_CLIENT_ID <;> simp [h]

/-- C9: a send whose input is empty or whitespace-only after trimming issues
no store operation at all, whichever the role, so chat and status state are
unchanged. -/
theorem c9_blank_input_no_write (userId : Option String) (userRole : Option Role)
    (cs : ClientStatus) (msg : String) (now : Nat) (st : Store)
    (h : jsTrim msg = "") :
    handleSendMessage userId userRole cs msg now = noSend ∧
    applyBatches st (handleSendMessage userId userRole cs msg now).batches = st := by
  match userId, userRole with
  | none, _ => exact ⟨rfl, rfl⟩
  | some uid, none => exact ⟨rfl, rfl⟩
  | some uid, some role =>
    have heq : handleSendMessage (some uid) (some role) cs msg now = noSend := by
      simp only [handleSendMessage]
      rw [if_pos h]
    exact ⟨heq, by rw [heq]; rfl⟩

/-- Witness for c9_blank_input_no_write at a concrete whitespace input. -/
theorem c9_blank_input_no_write_witness :
    handleSendMessage (some "u1") (some Role.master)
      { isLoggedIn := true, msgCount := 0, forceLogout := false } "   " 7 = noSend := by
  exact (c9_blank_input_no_write (some "u1") (some Role.master)
    { isLoggedIn := true, msgCount := 0, forceLogout := false } "   " 7
    { messages := [], status := none } (by decide)).1

/-- C3: an accepted normal client send (non-blank, below the limit, not the
special code) commits exactly one atomic batch holding exactly the one new
message document and the status set that raises msgCount by one; applied to
any store it appends that one message and increments msgCount by exactly 1. -/
theorem c3_normal_client_send_atomic (uid : String) (cs : ClientStatus)
    (msg : String) (now : Nat) (st : Store)
    (hne : jsTrim msg ≠ "")
    (hcount : cs.msgCount < MAX_MESSAGES_BEFORE_LOCK)
    (hcode : jsToUpper (jsTrim msg) ≠ SPECIAL_CODE) :
    (handleSendMessage (some uid) (some Role.client) cs msg now).batches =
      [[Write.putMessage { text := jsTrim msg, senderId := uid, timestamp := now },
        Write.putStatus { cs with msgCount := cs.msgCount + 1 }]] ∧
    (applyBatches st (handleSendMessage (some uid) (some Role.client) cs msg now).batches).messages =
      st.messages ++ [{ text := jsTrim msg, senderId := uid, timestamp := now }] ∧
    (applyBatches st (handleSendMessage (some uid) (some Role.client) cs msg now).batches).status =
      some { cs with msgCount := cs.msgCount + 1 } := by
  have heq : handleSendMessage (some uid) (some Role.client) cs msg now =
      { batches :=
          [[Write.putMessage { text := jsTrim msg, senderId := uid, timestamp := now },
            Write.putStatus { cs with msgCount := cs.msgCount + 1 }]],
        modal := false, inputCleared := true } := by
    simp only [handleSendMessage]
    rw [if_neg hne, if_neg (fun h => absurd h.2 (by omega)),
      if_neg (fun h => hcode h.2), if_pos trivial]
  exact ⟨by rw [heq], by rw [heq]; rfl, by rw [heq]; rfl⟩

/-- Witness for c3_normal_client_send_atomic at a concrete accepted send. -/
theorem c3_normal_client_send_atomic_witness :
    (handleSendMessage (some HARDCODED_CLIENT_ID) (some Role.client)
        { isLoggedIn := true, msgCount := 1, forceLogout := false } " hello " 9).batches =
      [[Write.putMessage { text := jsTrim " hello ", senderId := HARDCODED_CLIENT_ID, timestamp := 9 },
        Write.putStatus { isLoggedIn := true, msgCount := 2, forceLogout := false }]] ∧
    (applyBatches { messages := [], status := none }
        (handleSendMessage (some HARDCODED_CLIENT_ID) (some Role.client)
          { isLoggedIn := true, msgCount := 1, forceLogout := false } " hello " 9).batches).messages =
      [] ++ [{ text := jsTrim " hello ", senderId := HARDCODED_CLIENT_ID, timestamp := 9 }] ∧
    (applyBatches { messages := [], status := none }
        (handleSendMessage (some HARDCODED_CLIENT_ID) (some Role.client)
          { isLoggedIn := true, msgCount := 1, forceLogout := false } " hello " 9).batches).status =
      some { isLoggedIn := true, msgCount := 2, forceLogout := false } := by
  exact c3_normal_client_send_atomic HARDCODED_CLIENT_ID
    { isLoggedIn := true, msgCount := 1, forceLogout := false } " hello " 9
    { messages := [], status := none } (by decide) (by decide) (by decide)

/-- C4: with msgCount at MAX_MESSAGES_BEFORE_LOCK, a non-special-code client
send is rejected with the limit modal and issues no write of any kind, so
messages and ClientStatus are unchanged. -/
theorem c4_limit_reached_rejected (uid : String) (cs : ClientStatus)
    (msg : String) (now : Nat) (st : Store)
    (hne : jsTrim msg ≠ "")
    (hcount : cs.msgCount = MAX_MESSAGES_BEFORE_LOCK)
    (hcode : jsToUpper (jsTrim msg) ≠ SPECIAL_CODE) :
    handleSendMessage (some uid) (some Role.client) cs msg now =
      { batches := [], modal := true, inputCleared := false } ∧
    applyBatches st (handleSendMessage (some uid) (some Role.client) cs msg now).batches = st := by
  have heq : handleSendMessage (some uid) (some Role.client) cs msg now =
      { batches := [], modal := true, inputCleared := false } := by
    simp only [handleSendMessage]
    rw [if_neg hne, if_pos ⟨trivial, by omega⟩]
  exact ⟨heq, by rw [heq]; rfl⟩

/-- Witness for c4_limit_reached_rejected at a concrete locked send. -/
theorem c4_limit_reached_rejected_witness :
    handleSendMessage (some HARDCODED_CLIENT_ID) (some Role.client)
        { isLoggedIn := true, msgCount := 3, forceLogout := false } "hi" 2 =
      { batches := [], modal := true, inputCleared := false } ∧
    applyBatches { messages := [], status := none }
        (handleSendMessage (some HARDCODED_CLIENT_ID) (some Role.client)
          { isLoggedIn := true, msgCount := 3, forceLogout := false } "hi" 2).batches =
      { messages := [], status := none } := by
  exact c4_limit_reached_rejected HARDCODED_CLIENT_ID
    { isLoggedIn := true, msgCount := 3, forceLogout := false } "hi" 2
    { messages := [], status := none } (by decide) (by decide) (by decide)

/-- C1 as stated is false: the msgCount limit check (line 267) runs before the
special-code check (line 277), so a client send of "UNLOCK123" with msgCount
already at 3 opens the limit modal and performs neither the counter reset nor
the system-message append the claim promises for every prior msgCount. -/
theorem c1_special_code_counterexample :
    messageWrites (handleSendMessage (some HARDCODED_CLIENT_ID) (some Role.client)
        { isLoggedIn := true, msgCount := 3, forceLogout := false } "UNLOCK123" 0) = [] ∧
    statusWrites (handleSendMessage (some HARDCODED_CLIENT_ID) (some Role.client)
        { isLoggedIn := true, msgCount := 3, forceLogout := false } "UNLOCK123" 0) = [] ∧
    (handleSendMessage (some HARDCODED_CLIENT_ID) (some Role.client)
        { isLoggedIn := true, msgCount := 3, forceLogout := false } "UNLOCK123" 0).modal = true := by
  decide

/-- C1 amended: for a client send whose trimmed text equals the special code
case-insensitively AND whose prior msgCount is below MAX_MESSAGES_BEFORE_LOCK,
handleSendMessage writes the status with msgCount reset to 0, appends exactly
one system message with senderId SYSTEM, and appends no normal message. -/
theorem c1_special_code_reset_amended (cs : ClientStatus) (msg : String)
    (now : Nat) (st : Store)
    (hcode : jsToUpper (jsTrim msg) = SPECIAL_CODE)
    (hcount : cs.msgCount < MAX_MESSAGES_BEFORE_LOCK) :
    statusWrites (handleSendMessage (some HARDCODED_CLIENT_ID) (some Role.client) cs msg now) =
      [{ cs with msgCount := 0 }] ∧
    messageWrites (handleSendMessage (some HARDCODED_CLIENT_ID) (some Role.client) cs msg now) =
      [{ text := "Master: Code received. Client message counter reset.",
         senderId := "SYSTEM", timestamp := now }] ∧
    (applyBatches st (handleSendMessage (some HARDCODED_CLIENT_ID) (some Role.client) cs msg now).batches).status =
      some { cs with msgCount := 0 } ∧
    (applyBatches st (handleSendMessage (some HARDCODED_CLIENT_ID) (some Role.client) cs msg now).batches).messages =
      st.messages ++ [{ text := "Master: Code received. Client message counter reset.",
                        senderId := "SYSTEM", timestamp := now }] := by
  have hne : jsTrim msg ≠ "" := by
    intro h
    rw [h] at hcode
    exact absurd hcode (by decide)
  have heq : handleSendMessage (some HARDCODED_CLIENT_ID) (some Role.client) cs msg now =
      { batches :=
          [[Write.putStatus { cs with msgCount := 0 }],
           [Write.putMessage
              { text := "Master: Code received. Client message counter reset.",
                senderId := "SYSTEM", timestamp := now }]],
        modal := false, inputCleared := true } := by
    simp only [handleSendMessage]
    rw [if_neg hne, if_neg (fun h => absurd h.2 (by omega)), if_pos ⟨trivial, hcode⟩]
  exact ⟨by rw [heq]; rfl, by rw [heq]; rfl, by rw [heq]; rfl, by rw [heq]; rfl⟩

/-- Witness for c1_special_code_reset_amended at a concrete unlocked send. -/
theorem c1_special_code_reset_amended_witness :
    statusWrites (handleSendMessage (some HARDCODED_CLIENT_ID) (some Role.client)
        { isLoggedIn := true, msgCount := 2, forceLogout := false } " unlock123 " 4) =
      [{ isLoggedIn := true, msgCount := 0, forceLogout := false }] ∧
    messageWrites (handleSendMessage (some HARDCODED_CLIENT_ID) (some Role.client)
        { isLoggedIn := true, msgCount := 2, forceLogout := false } " unlock123 " 4) =
      [{ text := "Master: Code received. Client message counter reset.",
         senderId := "SYSTEM", timestamp := 4 }] ∧
    (applyBatches { messages := [], status := none }
        (handleSendMessage (some HARDCODED_CLIENT_ID) (some Role.client)
          { isLoggedIn := true, msgCount := 2, forceLogout := false } " unlock123 " 4).batches).status =
      some { isLoggedIn := true, msgCount := 0, forceLogout := false } ∧
    (applyBatches { messages := [], status := none }
        (handleSendMessage (some HARDCODED_CLIENT_ID) (some Role.client)
          { isLoggedIn := true, msgCount := 2, forceLogout := false } " unlock123 " 4).batches).messages =
      List.nil ++ [{ text := "Master: Code received. Client message counter reset.",
                     senderId := "SYSTEM", timestamp := 4 }] := by
  exact c1_special_code_reset_amended
    { isLoggedIn := true, msgCount := 2, forceLogout := false } " unlock123 " 4
    { messages := [], status := none } (by decide) (by decide)

/-- C10: an accepted master send commits exactly one batch holding exactly the
one new message document and no ClientStatus write at all, so msgCount,
isLoggedIn and forceLogout are untouched by master sends. -/
theorem c10_master_send_frame (uid : String) (cs : ClientStatus)
    (msg : String) (now : Nat) (st : Store)
    (hne : jsTrim msg ≠ "") :
    (handleSendMessage (some uid) (some Role.master) cs msg now).batches =
      [[Write.putMessage { text := jsTrim msg, senderId := uid, timestamp := now }]] ∧
    statusWrites (handleSendMessage (some uid) (some Role.master) cs msg now) = [] ∧
    (applyBatches st (handleSendMessage (some uid) (some Role.master) cs msg now).batches).status =
      st.status ∧
    (applyBatches st (handleSendMessage (some uid) (some Role.master) cs msg now).batches).messages =
      st.messages ++ [{ text := jsTrim msg, senderId := uid, timestamp := now }] := by
  have heq : handleSendMessage (some uid) (some Role.master) cs msg now =
      { batches := [[Write.putMessage { text := jsTrim msg, senderId := uid, timestamp := now }]],
        modal := false, inputCleared := true } := by
    simp only [handleSendMessage]
    rw [if_neg hne, if_neg (fun h => absurd h.1 (by decide)),
      if_neg (fun h => absurd h.1 (by decide)), if_neg (by decide)]
  exact ⟨by rw [heq], by rw [heq]; rfl, by rw [heq]; rfl, by rw [heq]; rfl⟩

/-- Witness for c10_master_send_frame at a concrete master send. -/
theorem c10_master_send_frame_witness :
    (handleSendMessage (some "master_7") (some Role.master)
        { isLoggedIn := true, msgCount := 2, forceLogout := false } "yo" 3).batches =
      [[Write.putMessage { text := jsTrim "yo", senderId := "master_7", timestamp := 3 }]] ∧
    statusWrites (handleSendMessage (some "master_7") (some Role.master)
        { isLoggedIn := true, msgCount := 2, forceLogout := false } "yo" 3) = [] ∧
    (applyBatches { messages := [], status := none }
        (handleSendMessage (some "master_7") (some Role.master)
          { isLoggedIn := true, msgCount := 2, forceLogout := false } "yo" 3).batches).status =
      Store.status { messages := [], status := none } ∧
    (applyBatches { messages := [], status := none }
        (handleSendMessage (some "master_7") (some Role.master)
          { isLoggedIn := true, msgCount := 2, forceLogout := false } "yo" 3).batches).messages =
      Store.messages { messages := [], status := none } ++
        [{ text := jsTrim "yo", senderId := "master_7", timestamp := 3 }] := by
  exact c10_master_send_frame "master_7"
    { isLoggedIn := true, msgCount := 2, forceLogout := false } "yo" 3
    { messages := [], status := none } (by decide)


/-- C2 as stated is false of the code: when a client session observes
forceLogout on its status snapshot it does sign out, clear its session, and
issue no further sends, but the promised deletion never happens, because
deleteClientChatData references the unimported `getDocs` and its catch
swallows the ReferenceError: at this concrete input both the conversation
message and the ClientStatus document survive the forced logout. -/
theorem c2_forced_logout_deletes_nothing :
    (statusSnapshot
        { userId := some HARDCODED_CLIENT_ID, userRole := some Role.client,
          clientStatus := { isLoggedIn := true, msgCount := 1, forceLogout := false },
          store := { messages := [{ text := "hi", senderId := "master_1", timestamp := 0 }],
                     status := some { isLoggedIn := true, msgCount := 1, forceLogout := true } },
          signedOut := false }).signedOut = true ∧
    (statusSnapshot
        { userId := some HARDCODED_CLIENT_ID, userRole := some Role.client,
          clientStatus := { isLoggedIn := true, msgCount := 1, forceLogout := false },
          store := { messages := [{ text := "hi", senderId := "master_1", timestamp := 0 }],
                     status := some { isLoggedIn := true, msgCount := 1, forceLogout := true } },
          signedOut := false }).userId = none ∧
    (statusSnapshot
        { userId := some HARDCODED_CLIENT_ID, userRole := some Role.client,
          clientStatus := { isLoggedIn := true, msgCount := 1, forceLogout := false },
          store := { messages := [{ text := "hi", senderId := "master_1", timestamp := 0 }],
                     status := some { isLoggedIn := true, msgCount := 1, forceLogout := true } },
          signedOut := false }).store =
      { messages := [{ text := "hi", senderId := "master_1", timestamp := 0 }],
        status := some { isLoggedIn := true, msgCount := 1, forceLogout := true } } ∧
    (handleSendMessage
        (statusSnapshot
          { userId := some HARDCODED_CLIENT_ID, userRole := some Role.client,
            clientStatus := { isLoggedIn := true, msgCount := 1, forceLogout := false },
            store := { messages := [{ text := "hi", senderId := "master_1", timestamp := 0 }],
                       status := some { isLoggedIn := true, msgCount := 1, forceLogout := true } },
            signedOut := false }).userId
        (statusSnapshot
          { userId := some HARDCODED_CLIENT_ID, userRole := some Role.client,
            clientStatus := { isLoggedIn := true, msgCount := 1, forceLogout := false },
            store := { messages := [{ text := "hi", senderId := "master_1", timestamp := 0 }],
                       status := some { isLoggedIn := true, msgCount := 1, forceLogout := true } },
            signedOut := false }).userRole
        { isLoggedIn := true, msgCount := 1, forceLogout := true } "hello" 1).batches = [] := by
  decide

/-- C8 as stated is false of the code: a client handleLogin does reset the
ClientStatus document to isLoggedIn true, msgCount 0, forceLogout false with a
fresh lastLogin, but the prior conversation messages are not deleted, because
deleteClientChatData references the unimported `getDocs` and its catch
swallows the ReferenceError: at this concrete input the old message survives
the login. -/
theorem c8_login_reset_no_delete :
    handleLogin (some HARDCODED_CLIENT_ID) (some Role.client) 5
        { messages := [{ text := "old", senderId := "m1", timestamp := 0 }],
          status := some { isLoggedIn := true, msgCount := 3, forceLogout := true } } =
      { messages := [{ text := "old", senderId := "m1", timestamp := 0 }],
        status := some { isLoggedIn := true, msgCount := 0, forceLogout := false,
                         lastLogin := some 5 } } := by
  decide

/-- C6: for the client press-and-hold control with no timer pending, releasing
before 3000 ms have elapsed since the press cancels the pending auto-logout
timer, so no logout fires at any later instant; and holding through an instant
at least 3000 ms past the press triggers the auto-logout exactly once. -/
theorem c6_touch_timer (t tr : Nat) (us vs ws : List Nat) (s₀ : TouchState)
    (h₀ : s₀.deadline = none) :
    (tr < t + 3000 → (∀ u ∈ us, u ≤ tr) →
      (runTicks vs (handleTouchEnd (some Role.client)
        (runTicks us (handleTouchStart (some Role.client) t s₀)))).logouts = s₀.logouts) ∧
    ((∃ w ∈ ws, t + 3000 ≤ w) →
      (runTicks ws (handleTouchStart (some Role.client) t s₀)).logouts = s₀.logouts + 1) := by
  have hstart : handleTouchStart (some Role.client) t s₀ =
      { s₀ with isTouching := true, deadline := some (t + 3000) } := by
    unfold handleTouchStart
    exact if_neg (fun h => h rfl)
  constructor
  · intro htr hall
    have h1 : runTicks us (handleTouchStart (some Role.client) t s₀) =
        { s₀ with isTouching := true, deadline := some (t + 3000) } := by
      rw [hstart]
      exact runTicks_no_fire us _ (t + 3000) rfl
        (fun u hu => lt_of_le_of_lt (hall u hu) htr)
    have h2 : handleTouchEnd (some Role.client)
        { s₀ with isTouching := true, deadline := some (t + 3000) } =
        { s₀ with isTouching := false, deadline := none } := by
      unfold handleTouchEnd
      exact if_neg (fun h => h rfl)
    rw [h1, h2, runTicks_deadline_none vs _ rfl]
  · intro hex
    rw [hstart]
    exact runTicks_fire_once ws _ (t + 3000) rfl hex

/-- Witness for c6_touch_timer: press at 0, release at 1000 with a tick at 500
in between and one at 5000 after, fires nothing; press at 0 held through a
tick at 4000 fires exactly once. -/
theorem c6_touch_timer_witness :
    (runTicks [5000] (handleTouchEnd (some Role.client)
      (runTicks [500] (handleTouchStart (some Role.client) 0
        { deadline := none, isTouching := false, logouts := 0 })))).logouts = 0 ∧
    (runTicks [4000] (handleTouchStart (some Role.client) 0
      { deadline := none, isTouching := false, logouts := 0 })).logouts = 0 + 1 := by
  have h := c6_touch_timer 0 1000 [500] [5000] [4000]
    { deadline := none, isTouching := false, logouts := 0 } rfl
  exact ⟨h.1 (by decide) (by decide), h.2 ⟨4000, by decide, by decide⟩⟩

/-- C7: canClientSend holds exactly when isLoggedIn is set and msgCount is
strictly below MAX_MESSAGES_BEFORE_LOCK; and whenever that conjunction fails,
a client send attempt through the form (which only renders while
isClientLoggedIn and is disabled while canClientSend is false) issues no
write. -/
theorem c7_can_client_send_gate (cs : ClientStatus) :
    (canClientSend cs = true ↔
      cs.isLoggedIn = true ∧ cs.msgCount < MAX_MESSAGES_BEFORE_LOCK) ∧
    (∀ uid msg now,
      ¬(cs.isLoggedIn = true ∧ cs.msgCount < MAX_MESSAGES_BEFORE_LOCK) →
      clientSendAttempt uid cs msg now = noSend) := by
  have hiff : canClientSend cs = true ↔
      cs.isLoggedIn = true ∧ cs.msgCount < MAX_MESSAGES_BEFORE_LOCK := by
    unfold canClientSend
    simp
  refine ⟨hiff, fun uid msg now hno => ?_⟩
  unfold clientSendAttempt
  by_cases hb : (cs.isLoggedIn && canClientSend cs) = true
  · simp only [Bool.and_eq_true] at hb
    exact absurd (hiff.mp hb.2) hno
  · exact if_neg hb

/-- Witness for c7_can_client_send_gate: a logged-out client status denies the
send and the attempt issues nothing. -/
theorem c7_can_client_send_gate_witness :
    clientSendAttempt "u1"
      { isLoggedIn := false, msgCount := 0, forceLogout := false } "hi" 0 = noSend := by
  exact (c7_can_client_send_gate
    { isLoggedIn := false, msgCount := 0, forceLogout := false }).2 "u1" "hi" 0 (by decide)

end PrivateChat
